import Mathlib

/-!
# SDChecker — verification of the data-collection / report contract

A shallow embedding of the two Python scripts of the SDChecker repository
(`SystemDiagnosticsTool.py`, the canonical variant, and `sdchecker.py`, the
minimal variant) together with proofs about the properties of their
specification.

Modelling conventions:

* Python `float` values that the scripts manipulate are modelled exactly.
  Every value the formatter produces is of the form `n / 1024^k` for a
  machine integer `n`; division of a binary floating point number by `1024`
  is exact, so the value is tracked as the pair `(n, k)` and rounding for
  `"%.2f"` formatting is performed on the exact rational `n / 1024^k`
  (round half to even, as CPython does for `format`).
* Values produced by the operating-system metrics provider (psutil, GPUtil,
  `platform`, `socket`, `datetime`) are out of scope per the specification
  and enter the model through an explicit environment structure.
-/

/-- Round `m / d` (with `d > 0`) to the nearest integer, ties to even —
the rounding CPython's fixed-point `format` applies. -/
def r2he (m d : Nat) : Nat :=
  let q := m / d
  let r := m % d
  if 2 * r > d then q + 1
  else if 2 * r < d then q
  else if q % 2 = 0 then q else q + 1

/-- `k` decimal digits of `n` (`n < 10^k`), left-padded with zeros. -/
def padDigits (k n : Nat) : String :=
  String.mk (((List.range k).reverse).map (fun i => Char.ofNat (48 + n / 10 ^ i % 10)))

/-- Render the non-negative scaled value `n / 10^k` with exactly `k` digits
after the decimal point (`n` is the value already scaled by `10^k`). -/
def renderFixed (k n : Nat) : String :=
  toString (n / 10 ^ k) ++ "." ++ padDigits k (n % 10 ^ k)

/-- `f"{bytes:.2f}"` where `bytes` is the float `n / 1024^j`: exact 2-decimal
rounding of the value (float division by 1024 is exact, see header). -/
def fmt2At (n j : Nat) : String :=
  renderFixed 2 (r2he (n * 100) (1024 ^ j))

/-- Loop body of `get_size` (`SystemDiagnosticsTool.py`, lines 27–34): `n` is
the original byte count, `j` counts how many times it has been divided by
1024; when the unit list is exhausted the value falls through to `"E"`. -/
def get_size_go (suffix : String) (n : Nat) (j : Nat) : List String → String
  | [] => fmt2At n j ++ "E" ++ suffix
  | u :: rest =>
    if n < 1024 ^ (j + 1) then fmt2At n j ++ u ++ suffix
    else get_size_go suffix n (j + 1) rest

/-- `get_size` of `SystemDiagnosticsTool.py` (lines 27–34).  The byte count
is a non-negative machine integer at every call site, so the `abs` in the
source is the identity and the input is a `Nat`. -/
def get_size (bytes : Nat) (suffix : String) : String :=
  get_size_go suffix bytes 0 ["", "K", "M", "G", "T", "P"]

/-- Loop body of the `get_size` copy in `sdchecker.py` (lines 4–9): same
loop, but there is no return statement after it, so exhausting the unit
list yields Python `None` — modelled as `Option.none`. -/
def sdchecker_get_size_go (suffix : String) (n : Nat) (j : Nat) :
    List String → Option String
  | [] => none
  | u :: rest =>
    if n < 1024 ^ (j + 1) then some (fmt2At n j ++ u ++ suffix)
    else sdchecker_get_size_go suffix n (j + 1) rest

/-- `get_size` of `sdchecker.py` (lines 4–9). -/
def sdchecker_get_size (bytes : Nat) (suffix : String) : Option String :=
  sdchecker_get_size_go suffix bytes 0 ["", "K", "M", "G", "T", "P"]

/-- Modelled from the spec: the index of "the smallest unit where the
magnitude is < 1024" in the unit list `{"", K, M, G, T, P, E}` (§3), with
extreme magnitudes falling through to the largest unit (§4.2). -/
def specUnitIndex (n : Nat) : Nat :=
  if n < 1024 ^ 1 then 0
  else if n < 1024 ^ 2 then 1
  else if n < 1024 ^ 3 then 2
  else if n < 1024 ^ 4 then 3
  else if n < 1024 ^ 5 then 4
  else if n < 1024 ^ 6 then 5
  else 6

/-- Modelled from the spec (§3): "divide by 1024 repeatedly, selecting the
smallest unit where the magnitude is <1024, formatted to 2 decimal places,
unit suffix from {"", K, M, G, T, P, E} + "B"". -/
def humanizeSpec (n : Nat) : String :=
  let k := specUnitIndex n
  renderFixed 2 (r2he (n * 100) (1024 ^ k)) ++
    (["", "K", "M", "G", "T", "P", "E"].getD k "") ++ "B"

/-- Model of a CPython `float` restricted to decimal values: the value is
`mant / 10 ^ exp`.  Every float the scripts print is produced by decimal
literals or by exact operations on them, so this restriction loses
nothing for the properties below (every binary fraction is a decimal). -/
structure PyFloat where
  mant : Int
  exp : Nat
deriving DecidableEq

/-- Helper for `PyFloat.normalize`, structurally recursive on the decimal
exponent. -/
def PyFloat.normalizeGo (m : Int) : Nat → Int × Nat
  | 0 => (m, 0)
  | e + 1 => if m % 10 = 0 ∧ e ≠ 0 then PyFloat.normalizeGo (m / 10) e else (m, e + 1)

/-- Strip trailing zero decimals (but keep at least one decimal digit),
mirroring the value-dependent rendering of `str(float)`. -/
def PyFloat.normalize (f : PyFloat) : PyFloat :=
  let p := PyFloat.normalizeGo f.mant f.exp
  ⟨p.1, p.2⟩

/-- `str(x)` for a decimal-valued float: shortest decimal digits, always at
least one digit after the point (`str(50.0) = "50.0"`). -/
def PyFloat.pystr (f : PyFloat) : String :=
  let g := f.normalize
  let sign := if g.mant < 0 then "-" else ""
  let m := g.mant.natAbs
  if g.exp = 0 then sign ++ toString m ++ ".0"
  else sign ++ toString (m / 10 ^ g.exp) ++ "." ++ padDigits g.exp (m % 10 ^ g.exp)

/-- `f"{x:.kf}"`: fixed-point formatting with `k` decimals, rounding half
to even on the exact value. -/
def PyFloat.fixed (k : Nat) (f : PyFloat) : String :=
  let sign := if f.mant < 0 then "-" else ""
  let m := f.mant.natAbs
  let n : Nat := if f.exp ≤ k then m * 10 ^ (k - f.exp) else r2he m (10 ^ (f.exp - k))
  sign ++ renderFixed k n

/-- `round(x, k)` on a decimal-valued float (half to even). -/
def PyFloat.roundTo (k : Nat) (f : PyFloat) : PyFloat :=
  if f.exp ≤ k then f
  else
    let d := 10 ^ (f.exp - k)
    let r := r2he f.mant.natAbs d
    ⟨if f.mant < 0 then -(r : Int) else (r : Int), k⟩

/-- Multiplication of a decimal-valued float by a natural number (used for
`g.load * 100`). -/
def PyFloat.mulNat (f : PyFloat) (c : Nat) : PyFloat :=
  ⟨f.mant * c, f.exp⟩

/-- JSON-like value tree: the report assembled by `collect_all` and
consumed by `pretty_print` and the `--json` exporter. -/
inductive Val where
  | str (s : String)
  | int (i : Int)
  | float (f : PyFloat)
  | bool (b : Bool)
  | null
  | obj (fields : List (String × Val))
  | arr (elems : List Val)

/-- Python `dict.get(key)` (default `None` handled at call sites): ordered
association-list lookup. -/
def Val.get : Val → String → Option Val
  | .obj fs, k => fs.lookup k
  | _, _ => none

/-- The top-level keys of an object value. -/
def Val.keys : Val → List String
  | .obj fs => fs.map Prod.fst
  | _ => []

/-- Python truthiness for the values appearing in the report. -/
def pyTruthy : Val → Bool
  | .str s => s ≠ ""
  | .int i => i ≠ 0
  | .float f => f.mant ≠ 0
  | .bool b => b
  | .null => false
  | .obj fs => !fs.isEmpty
  | .arr xs => !xs.isEmpty

/-- Python `a or b`. -/
def pyOr (a b : Val) : Val := if pyTruthy a then a else b

/-- `str(v)` for the scalar values the presenter interpolates.  Container
reprs are not modelled (the presenter never interpolates a container). -/
def pyStrVal : Val → String
  | .str s => s
  | .int i => toString i
  | .float f => f.pystr
  | .bool b => if b then "True" else "False"
  | .null => "None"
  | .obj _ => "dict"
  | .arr _ => "list"

/-- `float(v)` for the values reaching the presenter's numeric slots, with
the surrounding `try/except`-or-`or` defaults collapsing every non-numeric
value to `0.0` as the source does for `None`. -/
def pyFloatOf : Val → PyFloat
  | .float f => f
  | .int i => ⟨i, 0⟩
  | _ => ⟨0, 1⟩

/-- Python `s.upper()` (ASCII, as interface names are). -/
def pyUpper (s : String) : String := String.mk (s.data.map Char.toUpper)

/-- Python `s.startswith(pre)`. -/
def pyStartsWith (s pre : String) : Bool := pre.data.isPrefixOf s.data

/-- `needle in haystack` on character lists. -/
def listContainsSub (needle : List Char) : List Char → Bool
  | [] => needle.isEmpty
  | c :: cs => needle.isPrefixOf (c :: cs) || listContainsSub needle cs

/-- Python `needle in hay` for strings. -/
def pyIn (needle hay : String) : Bool := listContainsSub needle.data hay.data

/-- One address entry of `psutil.net_if_addrs()` as stored by
`network_info` (family already stringified by `str(addr.family)`). -/
structure Addr where
  family : String
  address : String
  netmask : Option String
  broadcast : Option String

/-- One entry of `psutil.net_if_stats()` as stored by `network_info`. -/
structure IfStats where
  isup : Bool
  duplex : String
  speed_mbps : Int
  mtu : Int

/-- The `network` report section's data: interface → address list and
interface → link stats, in provider order (Python dicts are ordered). -/
structure NetworkRep where
  interfaces : List (String × List Addr)
  stats : List (String × IfStats)

/-- `get_primary_ipv4` (`SystemDiagnosticsTool.py`, lines 279–290).
`gethost` is the result of `socket.gethostbyname(socket.gethostname())`,
`none` when that raises. -/
def get_primary_ipv4 (net : NetworkRep) (gethost : Option String) :
    Option String × Option String × Option Int :=
  match net.interfaces.findSome? (fun p =>
      p.2.findSome? (fun a =>
        if pyIn "AF_INET" a.family ∧ a.address ≠ "" ∧
            ¬ pyStartsWith a.address "127." then
          some (a.address, p.1, (net.stats.lookup p.1).map (·.speed_mbps))
        else none)) with
  | some (addr, ifname, speed) => (some addr, some ifname, speed)
  | none =>
    match gethost with
    | some h =>
      if h ≠ "" ∧ ¬ pyStartsWith h "127." then (some h, some "hostname", none)
      else (none, none, none)
    | none => (none, none, none)

/-- The VPN heuristic of `pretty_print` (lines 369–370):
`any("VPN" in name.upper() for name in interfaces.keys())`. -/
def vpnActive (interfaceNames : List String) : Bool :=
  interfaceNames.any (fun name => pyIn "VPN" (pyUpper name))

/-- The `f"{total_cpu_f:.1f}%"` fragment of the total-CPU line
(`pretty_print`, lines 320–325): `None` (and the `try/except`) default the
value to `0.0`. -/
def cpuUsageStr (cpu : Val) : String :=
  (pyFloatOf ((cpu.get "cpu_total_usage_percent").getD .null)).fixed 1 ++ "%"

/-- The total-CPU line printed by `pretty_print` (line 325). -/
def cpuUsageLine (cpu : Val) : String :=
  "Użycie CPU (całość): " ++ cpuUsageStr cpu

/-- The `{mem.get('percent','-')}` fragment of the RAM line (line 333):
interpolated with `str`, not reformatted. -/
def ramPercentStr (mem : Val) : String :=
  pyStrVal ((mem.get "percent").getD (.str "-"))

/-- The RAM line printed by `pretty_print` (line 333). -/
def ramUsedLine (mem : Val) : String :=
  "RAM użyte: " ++ pyStrVal ((mem.get "used").getD (.str "-")) ++
    " (" ++ ramPercentStr mem ++ "%)"

/-- `p.get("device", "-")` as interpolated on a disk line (lines 339–344). -/
def diskDeviceStr (p : Val) : String := pyStrVal ((p.get "device").getD (.str "-"))

/-- `p.get("fstype") or "-"` as interpolated on a disk line. -/
def diskFstypeStr (p : Val) : String :=
  pyStrVal (pyOr ((p.get "fstype").getD .null) (.str "-"))

/-- `p.get("total", "-")` as interpolated on a disk line. -/
def diskTotalStr (p : Val) : String := pyStrVal ((p.get "total").getD (.str "-"))

/-- `p.get("percent", "-")` as interpolated on a disk line: `str`, not
reformatted. -/
def diskPercentStr (p : Val) : String := pyStrVal ((p.get "percent").getD (.str "-"))

/-- One disk line of `pretty_print` (line 344). -/
def diskLine (p : Val) : String :=
  diskDeviceStr p ++ " typ: " ++ diskFstypeStr p ++ "  rozmiar: " ++
    diskTotalStr p ++ "  zajęte: " ++ diskPercentStr p ++ "%"

/-- `f"{mem_used}MB" if mem_used is not None else "-"` (line 380). -/
def gpuMemUsedStr (g : Val) : String :=
  match (g.get "memory_used").getD .null with
  | .null => "-"
  | v => pyStrVal v ++ "MB"

/-- `f"{mem_total}MB" if mem_total is not None else "-"` (line 381). -/
def gpuMemTotalStr (g : Val) : String :=
  match (g.get "memory_total").getD .null with
  | .null => "-"
  | v => pyStrVal v ++ "MB"

/-- `{float(load):.1f}` where `load = g.get("load_percent") or 0.0`
(lines 382, 384): a missing load is defaulted to `0.0`, not a dash. -/
def gpuLoadStr (g : Val) : String :=
  (pyFloatOf (pyOr ((g.get "load_percent").getD .null) (.float ⟨0, 1⟩))).fixed 1

/-- `{temp}` where `temp = g.get("temperature_c") or "-"` (lines 383–384). -/
def gpuTempStr (g : Val) : String :=
  pyStrVal (pyOr ((g.get "temperature_c").getD .null) (.str "-"))

/-- `{g.get('name','-')}` on the GPU line (line 384). -/
def gpuNameStr (g : Val) : String := pyStrVal ((g.get "name").getD (.str "-"))

/-- One GPU entry as printed by `pretty_print` (line 384; the single
`print` call contains an embedded newline). -/
def gpuLine (g : Val) : String :=
  gpuNameStr g ++ "  | Obciążenie: " ++ gpuLoadStr g ++ "% \nPamięć VRAM: " ++
    gpuMemUsedStr g ++ " / " ++ gpuMemTotalStr g ++ "  | Temp: " ++ gpuTempStr g ++ "C"

/-- Modelled from the spec (§4.3): a rendered percentage is "formatted to
one decimal place with a trailing `%`" when its last three characters are
a decimal point, a single digit and `%`. -/
def isOneDecimalPercent (s : String) : Bool :=
  match s.data.reverse with
  | c0 :: c1 :: c2 :: _ => c0 = '%' && c1.isDigit && c2 = '.'
  | _ => false

/-- The exact rational value of a decimal-valued float (used as sort key:
Python compares floats by value). -/
def PyFloat.toRat (f : PyFloat) : ℚ := (f.mant : ℚ) / (10 : ℚ) ^ f.exp

/-- One successfully sampled process, as produced by `psutil.process_iter`
together with the `oneshot` reads: pid, `info.get` name/username, the
`cpu_percent` sample and the resident-set size. -/
structure ProcRaw where
  pid : Int
  name : Option String
  username : Option String
  cpu : PyFloat
  rss : Nat

/-- One entry of the `procs` list built by `top_processes`
(`SystemDiagnosticsTool.py`, lines 224–241). -/
structure ProcEntry where
  pid : Int
  name : Option String
  user : Option String
  cpu_percent : PyFloat
  memory_rss : Nat
  memory_rss_human : String

/-- The dict appended for a successfully read process (lines 231–238). -/
def procEntry (r : ProcRaw) : ProcEntry :=
  ⟨r.pid, r.name, r.username, r.cpu, r.rss, get_size r.rss "B"⟩

/-- The enumeration loop (lines 226–240): processes that raise
`NoSuchProcess`/`AccessDenied` (`Except.error`) are skipped silently. -/
def readProcs (attempts : List (Except Unit ProcRaw)) : List ProcEntry :=
  attempts.filterMap (fun a => match a with
    | .ok r => some (procEntry r)
    | .error _ => none)

/-- Stable insertion for a descending sort: `x` is placed before the first
element whose key is ≤ its own, so elements with equal keys keep their
original relative order — the contract of Python's stable
`sorted(..., reverse=True)`. -/
def insertDesc {α : Type} (key : α → ℚ) (x : α) : List α → List α
  | [] => [x]
  | y :: ys => if key x < key y then y :: insertDesc key x ys else x :: y :: ys

/-- Stable descending sort by `key`: the embedding of
`sorted(procs, key=..., reverse=True)`. -/
def sortDesc {α : Type} (key : α → ℚ) : List α → List α
  | [] => []
  | x :: xs => insertDesc key x (sortDesc key xs)

/-- Sort key of the `by_cpu` ranking (line 242). -/
def cpuKey (p : ProcEntry) : ℚ := p.cpu_percent.toRat

/-- Sort key of the `by_mem` ranking (line 243). -/
def memKey (p : ProcEntry) : ℚ := (p.memory_rss : ℚ)

/-- `top_processes` (lines 224–244): the `(top_cpu, top_memory)` pair. -/
def top_processes (attempts : List (Except Unit ProcRaw)) (n : Nat) :
    List ProcEntry × List ProcEntry :=
  let procs := readProcs attempts
  ((sortDesc cpuKey procs).take n, (sortDesc memKey procs).take n)

/-- `None`-or-string to a report value. -/
def optStr : Option String → Val
  | some s => .str s
  | none => .null

/-- `None`-or-int to a report value. -/
def optInt : Option Int → Val
  | some i => .int i
  | none => .null

/-- `psutil.cpu_freq()` result, when the call neither raised nor returned
a falsy value. -/
structure FreqEnv where
  current : PyFloat
  min : PyFloat
  max : PyFloat

/-- The `cpuinfo.get_cpu_info()` fields read by `cpu_info` (each via
`ci.get`, hence optional). -/
structure CpuDetailEnv where
  brand_raw : Option String
  arch : Option String
  bits : Option Int
  hz_advertised : Option String
  hz_actual : Option String
  flags : Option (List String)

/-- `psutil.virtual_memory()` / `psutil.swap_memory()` fields. -/
structure MemEnv where
  total : Nat
  available : Nat
  used : Nat
  percent : PyFloat
  swap_total : Nat
  swap_used : Nat
  swap_percent : PyFloat

/-- `psutil.disk_usage(...)` fields. -/
structure UsageEnv where
  total : Nat
  used : Nat
  free : Nat
  percent : PyFloat

/-- One `psutil.disk_partitions()` entry plus the outcome of its
`disk_usage` query; `none` models a raised `PermissionError` (the only
exception the source catches there). -/
structure PartEnv where
  device : String
  mountpoint : String
  fstype : String
  opts : String
  usage : Option UsageEnv

/-- `psutil.disk_io_counters()` fields. -/
structure DiskCounters where
  read_bytes : Nat
  write_bytes : Nat
  read_count : Int
  write_count : Int

/-- `psutil.net_io_counters()` fields. -/
structure NetCounters where
  bytes_sent : Nat
  bytes_recv : Nat
  packets_sent : Int
  packets_recv : Int

/-- `psutil.sensors_battery()` fields. -/
structure BatteryEnv where
  percent : PyFloat
  secsleft : Int
  power_plugged : Bool

/-- One `GPUtil.getGPUs()` entry (attributes read by `gpu_info`;
`temperature` via `getattr(..., None)`, hence optional). -/
structure GpuEnv where
  id : Int
  name : String
  load : PyFloat
  memoryTotal : PyFloat
  memoryUsed : PyFloat
  memoryFree : PyFloat
  memoryUtil : PyFloat
  temperature : Option PyFloat

/-- One `psutil.net_connections()` entry (fields read by
`running_services_and_connections`). -/
structure ConnEnv where
  fd : Int
  family : String
  type_ : String
  status : String
  laddr : Option (String × Nat)
  raddr : Option (String × Nat)
  pid : Option Int

/-- The external world: everything the OS metrics providers return during
one invocation (out of scope per §1 of the spec, treated as given).
`Except.error` models a raised exception inside the corresponding `try`
block; datetime formatting is external and enters as strings. -/
structure Env where
  now_iso : String
  boot_iso : String
  uptime_seconds : Int
  uptime_human : String
  uname_system : String
  uname_node : String
  uname_release : String
  uname_version : String
  uname_machine : String
  uname_processor : String
  user : String
  haveDistro : Bool
  distroName : String
  physical_cores : Option Int
  logical_cpus : Option Int
  cpu_freq : Option FreqEnv
  per_core : List PyFloat
  total_cpu : PyFloat
  haveCpuinfo : Bool
  cpuinfo : Option CpuDetailEnv
  mem : MemEnv
  partitions : List PartEnv
  diskCounters : Option DiskCounters
  net : NetworkRep
  netCounters : Option NetCounters
  temps : Except Unit (List (String × List Val))
  fans : Except Unit (List (String × List Val))
  battery : Except Unit (Option BatteryEnv)
  haveGputil : Bool
  gpus : Except String (List GpuEnv)
  procs : List (Except Unit ProcRaw)
  conns : List ConnEnv

/-- `uptime_info` (lines 36–45); the datetime arithmetic and formatting
are external. -/
def uptime_info (e : Env) : Val :=
  .obj [("boot_time", .str e.boot_iso),
        ("uptime_seconds", .int e.uptime_seconds),
        ("uptime_human", .str e.uptime_human)]

/-- `basic_system_info` (lines 47–60): `uname.processor or "unknown"`,
plus a `distro` key only when the `distro` module imported. -/
def basic_system_info (e : Env) : Val :=
  .obj ([("system", .str e.uname_system),
         ("node_name", .str e.uname_node),
         ("release", .str e.uname_release),
         ("version", .str e.uname_version),
         ("machine", .str e.uname_machine),
         ("processor",
           .str (if e.uname_processor = "" then "unknown" else e.uname_processor)),
         ("user", .str e.user)] ++
        (if e.haveDistro then [("distro", .str e.distroName)] else []))

/-- `cpu_info` (lines 62–98).  `cpu_freq = none` covers both a raised and
a falsy `psutil.cpu_freq()`; `cpuinfo = none` covers a raised
`cpuinfo.get_cpu_info()`; `round(x, 2)` is `PyFloat.roundTo 2`. -/
def cpu_info (e : Env) : Val :=
  .obj [("physical_cores", optInt e.physical_cores),
        ("total_logical_cpus", optInt e.logical_cpus),
        ("cpu_freq",
          match e.cpu_freq with
          | some f => .obj [("current_mhz", .float (f.current.roundTo 2)),
                            ("min_mhz", .float (f.min.roundTo 2)),
                            ("max_mhz", .float (f.max.roundTo 2))]
          | none => .null),
        ("cpu_usage_per_core", .arr (e.per_core.map Val.float)),
        ("cpu_total_usage_percent", .float e.total_cpu),
        ("detailed",
          if e.haveCpuinfo then
            match e.cpuinfo with
            | some ci => .obj [("brand_raw", optStr ci.brand_raw),
                               ("arch", optStr ci.arch),
                               ("bits", optInt ci.bits),
                               ("hz_advertised", optStr ci.hz_advertised),
                               ("hz_actual", optStr ci.hz_actual),
                               ("flags", match ci.flags with
                                 | some fl => .arr (fl.map Val.str)
                                 | none => .null)]
            | none => .null
          else .null)]

/-- `memory_info` (lines 100–111). -/
def memory_info (e : Env) : Val :=
  .obj [("total", .str (get_size e.mem.total "B")),
        ("available", .str (get_size e.mem.available "B")),
        ("used", .str (get_size e.mem.used "B")),
        ("percent", .float e.mem.percent),
        ("swap_total", .str (get_size e.mem.swap_total "B")),
        ("swap_used", .str (get_size e.mem.swap_used "B")),
        ("swap_percent", .float e.mem.swap_percent)]

/-- One partition dict of `disks_info` (lines 115–130): on a
`PermissionError` the numeric usage keys are never added and the `error`
marker is recorded instead; the entry is appended either way. -/
def partVal (p : PartEnv) : Val :=
  .obj ([("device", .str p.device),
         ("mountpoint", .str p.mountpoint),
         ("fstype", .str p.fstype),
         ("opts", .str p.opts)] ++
        (match p.usage with
         | some u => [("total", .str (get_size u.total "B")),
                      ("used", .str (get_size u.used "B")),
                      ("free", .str (get_size u.free "B")),
                      ("percent", .float u.percent)]
         | none => [("error", .str "PermissionError")]))

/-- `disks_info` (lines 113–140). -/
def disks_info (e : Env) : Val :=
  .obj [("partitions", .arr (e.partitions.map partVal)),
        ("io_total_read", match e.diskCounters with
          | some d => .str (get_size d.read_bytes "B") | none => .null),
        ("io_total_write", match e.diskCounters with
          | some d => .str (get_size d.write_bytes "B") | none => .null),
        ("io_counts_read", match e.diskCounters with
          | some d => .int d.read_count | none => .null),
        ("io_counts_write", match e.diskCounters with
          | some d => .int d.write_count | none => .null)]

/-- One address dict stored by `network_info` (lines 148–155). -/
def addrVal (a : Addr) : Val :=
  .obj [("family", .str a.family),
        ("address", .str a.address),
        ("netmask", optStr a.netmask),
        ("broadcast", optStr a.broadcast)]

/-- `network_info` (lines 142–172); key order is dict insertion order:
`interfaces` and `io_counters` from the initial literal, `stats` third. -/
def network_info (e : Env) : Val :=
  .obj [("interfaces",
          .obj (e.net.interfaces.map (fun p => (p.1, Val.arr (p.2.map addrVal))))),
        ("io_counters",
          match e.netCounters with
          | some c => .obj [("bytes_sent", .str (get_size c.bytes_sent "B")),
                            ("bytes_recv", .str (get_size c.bytes_recv "B")),
                            ("packets_sent", .int c.packets_sent),
                            ("packets_recv", .int c.packets_recv)]
          | none => .null),
        ("stats",
          .obj (e.net.stats.map (fun p => (p.1,
            Val.obj [("isup", .bool p.2.isup),
                     ("duplex", .str p.2.duplex),
                     ("speed_mbps", .int p.2.speed_mbps),
                     ("mtu", .int p.2.mtu)]))))]

/-- `sensors_info` (lines 195–222): each category has its own
`try/except`; a raised query records a `…_error` marker key instead of
the data key; a battery of `None` records the `battery` key with `None`. -/
def sensors_info (e : Env) : Val :=
  .obj ((match e.temps with
         | .ok t => [("temperatures", Val.obj (t.map (fun p => (p.1, Val.arr p.2))))]
         | .error _ => [("temperatures_error", Val.str "not supported")]) ++
        (match e.fans with
         | .ok fdata => [("fans", Val.obj (fdata.map (fun p => (p.1, Val.arr p.2))))]
         | .error _ => [("fans_error", Val.str "not supported")]) ++
        (match e.battery with
         | .ok (some b) => [("battery",
             Val.obj [("percent", .float b.percent),
                      ("secsleft", .int b.secsleft),
                      ("power_plugged", .bool b.power_plugged)])]
         | .ok none => [("battery", Val.null)]
         | .error _ => [("battery_error", Val.str "not supported")]))

/-- The note stored when GPUtil is not importable (line 176). -/
def gputilNote : String :=
  "GPUtil not installed. Install with 'pip install GPUtil' for GPU info."

/-- One GPU dict (lines 180–190). -/
def gpuVal (g : GpuEnv) : Val :=
  .obj [("id", .int g.id),
        ("name", .str g.name),
        ("load_percent", .float ((g.load.mulNat 100).roundTo 2)),
        ("memory_total", .str (g.memoryTotal.pystr ++ "MB")),
        ("memory_used", .str (g.memoryUsed.pystr ++ "MB")),
        ("memory_free", .str (g.memoryFree.pystr ++ "MB")),
        ("memory_util_percent", .float ((g.memoryUtil.mulNat 100).roundTo 2)),
        ("temperature_c", match g.temperature with
          | some t => .float t | none => .null)]

/-- `gpu_info` (lines 174–193): a missing GPUtil and a raised query both
yield an explicit `available: False` marker object, never a missing
section. -/
def gpu_info (e : Env) : Val :=
  if e.haveGputil then
    match e.gpus with
    | .ok gs => .obj [("available", .bool true), ("gpus", .arr (gs.map gpuVal))]
    | .error msg => .obj [("available", .bool false), ("error", .str msg)]
  else
    .obj [("available", .bool false), ("note", .str gputilNote)]

/-- One listening-socket dict (lines 250–258). -/
def connVal (c : ConnEnv) : Val :=
  .obj [("fd", .int c.fd),
        ("family", .str c.family),
        ("type", .str c.type_),
        ("laddr", match c.laddr with
          | some a => .str (a.1 ++ ":" ++ toString a.2) | none => .null),
        ("raddr", match c.raddr with
          | some a => .str (a.1 ++ ":" ++ toString a.2) | none => .null),
        ("pid", optInt c.pid)]

/-- `running_services_and_connections` (lines 246–261): only sockets in
status `LISTEN` are kept; a raised enumeration is absorbed, leaving the
sockets processed so far (carried by the environment). -/
def running_services_and_connections (e : Env) : Val :=
  .obj [("listening_sockets",
    .arr ((e.conns.filter (fun c => c.status == "LISTEN")).map connVal))]

/-- One process dict as serialized into the report. -/
def procVal (p : ProcEntry) : Val :=
  .obj [("pid", .int p.pid),
        ("name", optStr p.name),
        ("user", optStr p.user),
        ("cpu_percent", .float p.cpu_percent),
        ("memory_rss", .int (p.memory_rss : Int)),
        ("memory_rss_human", .str p.memory_rss_human)]

/-- The `processes` section: the dict returned by `top_processes`. -/
def processesVal (e : Env) (topN : Nat) : Val :=
  .obj [("top_cpu", .arr ((top_processes e.procs topN).1.map procVal)),
        ("top_memory", .arr ((top_processes e.procs topN).2.map procVal))]

/-- `collect_all` (lines 263–277): the report dict literal. -/
def collect_all (e : Env) (topN : Nat) : Val :=
  .obj [("generated_at", .str e.now_iso),
        ("basic_system", basic_system_info e),
        ("uptime", uptime_info e),
        ("cpu", cpu_info e),
        ("memory", memory_info e),
        ("disks", disks_info e),
        ("network", network_info e),
        ("sensors", sensors_info e),
        ("gpu", gpu_info e),
        ("processes", processesVal e topN),
        ("connections", running_services_and_connections e)]

/-- A concrete environment with GPUtil missing and every sensor query
raising (used to instantiate the universal theorems). -/
def envA : Env where
  now_iso := "2025-01-01T00:00:00"
  boot_iso := "2025-01-01T00:00:00"
  uptime_seconds := 0
  uptime_human := "0:00:00"
  uname_system := "Linux"
  uname_node := "host"
  uname_release := "6.1.0"
  uname_version := "#1 SMP"
  uname_machine := "x86_64"
  uname_processor := ""
  user := "root"
  haveDistro := false
  distroName := ""
  physical_cores := some 4
  logical_cpus := some 8
  cpu_freq := none
  per_core := []
  total_cpu := ⟨0, 1⟩
  haveCpuinfo := false
  cpuinfo := none
  mem := ⟨0, 0, 0, ⟨0, 1⟩, 0, 0, ⟨0, 1⟩⟩
  partitions := []
  diskCounters := none
  net := ⟨[], []⟩
  netCounters := none
  temps := .error ()
  fans := .error ()
  battery := .error ()
  haveGputil := false
  gpus := .error "GPUtil unavailable"
  procs := []
  conns := []

/-! ## Theorems -/

/-- **C2.** For every non-negative byte count, `humanize` (`get_size` with
the default `"B"` suffix) divides by 1024 repeatedly and returns the value
scaled to the smallest unit where the magnitude is < 1024, formatted to 2
decimal places, with unit suffix drawn from {"", K, M, G, T, P, E} followed
by "B"; in particular `humanize 0 = "0.00B"`, `humanize 1024 = "1.00KB"`,
`humanize 1536 = "1.50KB"` and `humanize 1073741824 = "1.00GB"`. -/
theorem get_size_matches_spec_humanize :
    (∀ n : Nat, get_size n "B" = humanizeSpec n) ∧
    get_size 0 "B" = "0.00B" ∧ get_size 1024 "B" = "1.00KB" ∧
    get_size 1536 "B" = "1.50KB" ∧ get_size 1073741824 "B" = "1.00GB" := by
  refine ⟨?_, by decide, by decide, by decide, by decide⟩
  intro n
  by_cases h1 : n < 1024
  · simp [get_size, get_size_go, humanizeSpec, specUnitIndex, fmt2At, h1]
  by_cases h2 : n < 1048576
  · simp [get_size, get_size_go, humanizeSpec, specUnitIndex, fmt2At, h1, h2]
  by_cases h3 : n < 1073741824
  · simp [get_size, get_size_go, humanizeSpec, specUnitIndex, fmt2At, h1, h2, h3]
  by_cases h4 : n < 1099511627776
  · simp [get_size, get_size_go, humanizeSpec, specUnitIndex, fmt2At, h1, h2, h3, h4]
  by_cases h5 : n < 1125899906842624
  · simp [get_size, get_size_go, humanizeSpec, specUnitIndex, fmt2At, h1, h2, h3, h4, h5]
  by_cases h6 : n < 1152921504606846976
  · simp [get_size, get_size_go, humanizeSpec, specUnitIndex, fmt2At,
      h1, h2, h3, h4, h5, h6]
  · simp [get_size, get_size_go, humanizeSpec, specUnitIndex, fmt2At,
      h1, h2, h3, h4, h5, h6]

/-- Witness for C2: the universally quantified part evaluated at 2048. -/
theorem get_size_matches_spec_humanize_witness :
    get_size 2048 "B" = humanizeSpec 2048 :=
  get_size_matches_spec_humanize.1 2048

/-- Counterexample for C6: at `1024^6` bytes, the `get_size` copy of
`sdchecker.py` falls off the end of its unit loop and returns Python
`None`, not a string. -/
theorem sdchecker_get_size_exabyte_none :
    sdchecker_get_size (1024 ^ 6) "B" = none := by decide

/-- **C6 (amended).** The canonical `get_size` of
`SystemDiagnosticsTool.py` always returns a string: magnitudes at or above
`1024^6` fall through to the largest unit `"E"` without further scaling.
The near-duplicate `get_size` of `sdchecker.py`, however, returns no value
(Python `None`) for such magnitudes; below `1024^6` the two variants
agree. -/
theorem get_size_extreme_magnitudes :
    ∀ n : Nat,
      (1024 ^ 6 ≤ n →
        get_size n "B" = fmt2At n 6 ++ "E" ++ "B" ∧
        sdchecker_get_size n "B" = none) ∧
      (n < 1024 ^ 6 → sdchecker_get_size n "B" = some (get_size n "B")) := by
  intro n
  constructor
  · intro h
    have h1 : ¬ n < 1024 := by omega
    have h2 : ¬ n < 1048576 := by omega
    have h3 : ¬ n < 1073741824 := by omega
    have h4 : ¬ n < 1099511627776 := by omega
    have h5 : ¬ n < 1125899906842624 := by omega
    have h6 : ¬ n < 1152921504606846976 := by omega
    constructor
    · simp [get_size, get_size_go, h1, h2, h3, h4, h5, h6]
    · simp [sdchecker_get_size, sdchecker_get_size_go, h1, h2, h3, h4, h5, h6]
  · intro h
    by_cases h1 : n < 1024
    · simp [get_size, get_size_go, sdchecker_get_size, sdchecker_get_size_go, h1]
    by_cases h2 : n < 1048576
    · simp [get_size, get_size_go, sdchecker_get_size, sdchecker_get_size_go, h1, h2]
    by_cases h3 : n < 1073741824
    · simp [get_size, get_size_go, sdchecker_get_size, sdchecker_get_size_go, h1, h2, h3]
    by_cases h4 : n < 1099511627776
    · simp [get_size, get_size_go, sdchecker_get_size, sdchecker_get_size_go,
        h1, h2, h3, h4]
    by_cases h5 : n < 1125899906842624
    · simp [get_size, get_size_go, sdchecker_get_size, sdchecker_get_size_go,
        h1, h2, h3, h4, h5]
    · have h6 : n < 1152921504606846976 := by omega
      simp [get_size, get_size_go, sdchecker_get_size, sdchecker_get_size_go,
        h1, h2, h3, h4, h5, h6]

/-- Witness for C6 (amended), at the threshold byte count `1024^6`. -/
theorem get_size_extreme_magnitudes_witness :
    get_size (1024 ^ 6) "B" = fmt2At (1024 ^ 6) 6 ++ "E" ++ "B" ∧
    sdchecker_get_size (1024 ^ 6) "B" = none :=
  (get_size_extreme_magnitudes (1024 ^ 6)).1 le_rfl

/-- Characterization of the Python `in` substring test on char lists. -/
theorem listContainsSub_iff (nd : List Char) :
    ∀ l, listContainsSub nd l = true ↔ ∃ pre suf, l = pre ++ nd ++ suf := by
  intro l
  induction l with
  | nil =>
    simp only [listContainsSub, List.isEmpty_iff]
    constructor
    · rintro rfl; exact ⟨[], [], rfl⟩
    · rintro ⟨pre, suf, h⟩
      rcases List.append_eq_nil.mp (List.append_eq_nil.mp h.symm).1 with ⟨-, h2⟩
      exact h2
  | cons c cs ih =>
    simp only [listContainsSub, Bool.or_eq_true, ih, List.isPrefixOf_iff_prefix]
    constructor
    · rintro (⟨t, ht⟩ | ⟨pre, suf, rfl⟩)
      · exact ⟨[], t, by simp [ht]⟩
      · exact ⟨c :: pre, suf, rfl⟩
    · rintro ⟨pre, suf, h⟩
      cases pre with
      | nil => exact Or.inl ⟨suf, by simpa using h.symm⟩
      | cons p ps =>
        rcases List.cons_eq_cons.mp h with ⟨-, h2⟩
        exact Or.inr ⟨ps, suf, h2⟩

/-- **C7.** The presenter flags "VPN active" iff some interface name
contains the substring "VPN" case-insensitively; `tun0` is not flagged and
`VPN-Gateway` is flagged. -/
theorem vpn_heuristic :
    (∀ names : List String, vpnActive names = true ↔
      ∃ n ∈ names, ∃ pre suf, (pyUpper n).data = pre ++ "VPN".data ++ suf) ∧
    vpnActive ["tun0"] = false ∧ vpnActive ["VPN-Gateway"] = true := by
  refine ⟨?_, by decide, by decide⟩
  intro names
  simp [vpnActive, pyIn, listContainsSub_iff]

/-- Witness for C7, via the characterization applied to `["VPN-Gateway"]`. -/
theorem vpn_heuristic_witness :
    ∃ n ∈ ["VPN-Gateway"], ∃ pre suf,
      (pyUpper n).data = pre ++ "VPN".data ++ suf :=
  (vpn_heuristic.1 ["VPN-Gateway"]).mp (by decide)

/-- **C1.** `get_primary_ipv4` evaluated on the three decisive inputs: the
spec's positive example (loopback first, then `eth0`), the spec's fallback
example (loopback only, hostname also loopback ⇒ "no address"), and the
failing input for the claim: a single interface whose only address has
family `AddressFamily.AF_INET6` is *chosen* as the primary IPv4 address,
because the code's family test is the substring check
`"AF_INET" in a["family"]`, which `"AF_INET6"` also satisfies. -/
theorem primary_ipv4_behaviour :
    get_primary_ipv4
        ⟨[("lo", [⟨"AddressFamily.AF_INET", "127.0.0.1", some "255.0.0.0", none⟩]),
          ("eth0", [⟨"AddressFamily.AF_INET", "192.168.1.5", some "255.255.255.0", none⟩])],
         [("eth0", ⟨true, "NicDuplex.NIC_DUPLEX_FULL", 1000, 1500⟩)]⟩ none
      = (some "192.168.1.5", some "eth0", some 1000) ∧
    get_primary_ipv4
        ⟨[("lo", [⟨"AddressFamily.AF_INET", "127.0.0.1", some "255.0.0.0", none⟩])], []⟩
        (some "127.0.1.1")
      = (none, none, none) ∧
    get_primary_ipv4
        ⟨[("eth0", [⟨"AddressFamily.AF_INET6", "fe80::2", none, none⟩])], []⟩ none
      = (some "fe80::2", some "eth0", none) :=
  ⟨by decide, by decide, by decide⟩

/-- Counterexample for C9: a GPU entry whose `load_percent` is missing
(`None`) renders its load as `0.0%`, not as the placeholder dash. -/
theorem gpu_load_not_dash_counterexample :
    gpuLine (.obj [("name", .str "GPU0"), ("load_percent", .null),
        ("temperature_c", .null)]) =
      "GPU0  | Obciążenie: 0.0% \nPamięć VRAM: - / -  | Temp: -C" ∧
    gpuLoadStr (.obj [("name", .str "GPU0"), ("load_percent", .null),
        ("temperature_c", .null)]) ≠ "-" :=
  ⟨by decide, by decide⟩

/-- **C9 (amended).** Disk lines render a missing `total` or `percent` as
the placeholder dash, and GPU lines render a missing memory or temperature
value as the placeholder dash, without raising; a missing GPU *load*,
however, is rendered as `0.0` (defaulted to zero), not as a dash. -/
theorem presenter_missing_fields :
    (∀ p : Val, p.get "total" = none → diskTotalStr p = "-") ∧
    (∀ p : Val, p.get "percent" = none → diskPercentStr p = "-") ∧
    (∀ p : Val, diskLine p =
      diskDeviceStr p ++ " typ: " ++ diskFstypeStr p ++ "  rozmiar: " ++
        diskTotalStr p ++ "  zajęte: " ++ diskPercentStr p ++ "%") ∧
    (∀ g : Val, (g.get "memory_used").getD .null = .null → gpuMemUsedStr g = "-") ∧
    (∀ g : Val, (g.get "memory_total").getD .null = .null → gpuMemTotalStr g = "-") ∧
    (∀ g : Val, (g.get "temperature_c").getD .null = .null → gpuTempStr g = "-") ∧
    (∀ g : Val, (g.get "load_percent").getD .null = .null → gpuLoadStr g = "0.0") ∧
    (∀ g : Val, gpuLine g =
      gpuNameStr g ++ "  | Obciążenie: " ++ gpuLoadStr g ++ "% \nPamięć VRAM: " ++
        gpuMemUsedStr g ++ " / " ++ gpuMemTotalStr g ++ "  | Temp: " ++
        gpuTempStr g ++ "C") := by
  refine ⟨?_, ?_, fun p => rfl, ?_, ?_, ?_, ?_, fun g => rfl⟩
  · intro p h; simp [diskTotalStr, h, pyStrVal]
  · intro p h; simp [diskPercentStr, h, pyStrVal]
  · intro g h; simp [gpuMemUsedStr, h]
  · intro g h; simp [gpuMemTotalStr, h]
  · intro g h; simp [gpuTempStr, h, pyOr, pyTruthy, pyStrVal]
  · intro g h
    simp only [gpuLoadStr, h]
    decide

/-- Witness for C9 (amended), at a partition and GPU entry with no fields. -/
theorem presenter_missing_fields_witness :
    diskTotalStr (.obj []) = "-" ∧ gpuLoadStr (.obj []) = "0.0" :=
  ⟨presenter_missing_fields.1 (.obj []) rfl,
   presenter_missing_fields.2.2.2.2.2.2.1 (.obj []) rfl⟩

/-- Characters `'0'`–`'9'` are digits. -/
theorem digitChar_isDigit : ∀ m, m < 10 → (Char.ofNat (48 + m)).isDigit = true := by
  decide

/-- Anything rendered through `renderFixed 1` (one fixed decimal) followed
by `%` satisfies the one-decimal-percent format. -/
theorem renderFixed_one_decimal (s : String) (n : Nat) :
    isOneDecimalPercent (s ++ renderFixed 1 n ++ "%") = true := by
  have h10 : n % 10 ^ 1 / 10 ^ 0 % 10 < 10 := Nat.mod_lt _ (by norm_num)
  have hdot : ("." : String).data = ['.'] := rfl
  have hpct : ("%" : String).data = ['%'] := rfl
  have hr1 : List.range 1 = [0] := rfl
  simp [isOneDecimalPercent, renderFixed, padDigits, String.data_append,
    List.reverse_append, hr1, hdot, hpct]
  exact digitChar_isDigit _ (Nat.mod_lt _ (by norm_num))

/-- Counterexample for C8: a RAM percent of `50.25` is interpolated raw on
the RAM line — two decimal places, not one. -/
theorem percent_raw_interpolation_counterexample :
    ramUsedLine (.obj [("used", .str "4.00GB"), ("percent", .float ⟨5025, 2⟩)]) =
      "RAM użyte: 4.00GB (50.25%)" ∧
    isOneDecimalPercent (ramPercentStr (.obj [("used", .str "4.00GB"),
        ("percent", .float ⟨5025, 2⟩)]) ++ "%") = false :=
  ⟨by decide, by decide⟩

/-- **C8 (amended).** In the presenter's rendered output the CPU total
usage and the GPU load are formatted to exactly one decimal place with a
trailing `%`; the RAM percent and the per-partition disk percent are
interpolated with `str` (no reformatting), with only the trailing `%`
added by the format string. -/
theorem percent_formatting :
    (∀ cpu : Val, cpuUsageLine cpu = "Użycie CPU (całość): " ++ cpuUsageStr cpu ∧
      isOneDecimalPercent (cpuUsageStr cpu) = true) ∧
    (∀ g : Val, isOneDecimalPercent (gpuLoadStr g ++ "%") = true) ∧
    (∀ mem q, mem.get "percent" = some (.float q) → ramPercentStr mem = q.pystr) ∧
    (∀ p q, p.get "percent" = some (.float q) → diskPercentStr p = q.pystr) := by
  refine ⟨fun cpu => ⟨rfl, ?_⟩, fun g => ?_, ?_, ?_⟩
  · exact renderFixed_one_decimal _ _
  · exact renderFixed_one_decimal _ _
  · intro mem q h; simp [ramPercentStr, h, pyStrVal]
  · intro p q h; simp [diskPercentStr, h, pyStrVal]

/-- Witness for C8 (amended): the raw-interpolation part at percent 63.4. -/
theorem percent_formatting_witness :
    ramPercentStr (.obj [("percent", .float ⟨634, 1⟩)]) = PyFloat.pystr ⟨634, 1⟩ :=
  percent_formatting.2.2.1 (.obj [("percent", .float ⟨634, 1⟩)]) ⟨634, 1⟩ rfl

/-- Membership in a stable descending insertion. -/
theorem mem_insertDesc {α : Type} (key : α → ℚ) (x a : α) :
    ∀ l : List α, a ∈ insertDesc key x l ↔ a = x ∨ a ∈ l := by
  intro l
  induction l with
  | nil => simp [insertDesc]
  | cons y ys ih =>
    simp only [insertDesc]
    split
    · simp [ih]; tauto
    · simp [List.mem_cons]

/-- Insertion length. -/
theorem insertDesc_length {α : Type} (key : α → ℚ) (x : α) :
    ∀ l : List α, (insertDesc key x l).length = l.length + 1 := by
  intro l
  induction l with
  | nil => rfl
  | cons y ys ih =>
    simp only [insertDesc]
    split <;> simp [ih]

/-- Sorting preserves length. -/
theorem sortDesc_length {α : Type} (key : α → ℚ) :
    ∀ l : List α, (sortDesc key l).length = l.length := by
  intro l
  induction l with
  | nil => rfl
  | cons x xs ih => simp [sortDesc, insertDesc_length, ih]

/-- Insertion preserves descending sortedness. -/
theorem insertDesc_pairwise {α : Type} (key : α → ℚ) (x : α) :
    ∀ l : List α, List.Pairwise (fun a b => key b ≤ key a) l →
      List.Pairwise (fun a b => key b ≤ key a) (insertDesc key x l) := by
  intro l
  induction l with
  | nil => intro _; simp [insertDesc]
  | cons y ys ih =>
    intro h
    rcases List.pairwise_cons.mp h with ⟨hy, hys⟩
    simp only [insertDesc]
    split
    · rename_i hlt
      refine List.pairwise_cons.mpr ⟨?_, ih hys⟩
      intro b hb
      rcases (mem_insertDesc key x b ys).mp hb with rfl | hbys
      · exact le_of_lt hlt
      · exact hy b hbys
    · rename_i hnlt
      refine List.pairwise_cons.mpr ⟨?_, h⟩
      intro b hb
      rcases List.mem_cons.mp hb with rfl | hbys
      · exact le_of_not_lt hnlt
      · exact le_trans (hy b hbys) (le_of_not_lt hnlt)

/-- The result of `sortDesc` is sorted descending by its key. -/
theorem sortDesc_sorted {α : Type} (key : α → ℚ) :
    ∀ l : List α, List.Pairwise (fun a b => key b ≤ key a) (sortDesc key l) := by
  intro l
  induction l with
  | nil => simp [sortDesc]
  | cons x xs ih => exact insertDesc_pairwise key x _ ih

/-- Filtering one key class through an insertion. -/
theorem filter_insertDesc {α : Type} (key : α → ℚ) (x : α) (v : ℚ) :
    ∀ l : List α, (insertDesc key x l).filter (fun a => decide (key a = v)) =
      if key x = v then x :: l.filter (fun a => decide (key a = v))
      else l.filter (fun a => decide (key a = v)) := by
  intro l
  induction l with
  | nil => by_cases hx : key x = v <;> simp [insertDesc, hx]
  | cons y ys ih =>
    simp only [insertDesc]
    split
    · rename_i hlt
      by_cases hy : key y = v
      · have hx : ¬ key x = v := by
          intro hx; rw [hx, hy] at hlt; exact lt_irrefl v hlt
        simp [List.filter_cons, hx, hy, ih]
      · by_cases hx : key x = v <;> simp [List.filter_cons, hx, hy, ih]
    · by_cases hx : key x = v <;> by_cases hy : key y = v <;>
        simp [List.filter_cons, hx, hy]

/-- Stability: each equal-key class of the sorted list is the original
subsequence of that class (ties keep enumeration order). -/
theorem sortDesc_stable {α : Type} (key : α → ℚ) (v : ℚ) :
    ∀ l : List α, (sortDesc key l).filter (fun a => decide (key a = v)) =
      l.filter (fun a => decide (key a = v)) := by
  intro l
  induction l with
  | nil => rfl
  | cons x xs ih =>
    simp only [sortDesc, filter_insertDesc, ih, List.filter_cons]
    by_cases hx : key x = v <;> simp [hx]

/-- **C3.** For every list of process-read attempts and every `n ≥ 0`,
`top_processes` returns a top-CPU list sorted descending by CPU percent
and a top-memory list sorted descending by resident memory, each of
length exactly `min n processCount` (over the successfully-read
processes), with ties broken by original enumeration order (stable sort);
`n = 0` yields empty lists. -/
theorem top_processes_spec :
    ∀ (attempts : List (Except Unit ProcRaw)) (n : Nat),
      (top_processes attempts n).1.length = min n (readProcs attempts).length ∧
      (top_processes attempts n).2.length = min n (readProcs attempts).length ∧
      List.Pairwise (fun a b => cpuKey b ≤ cpuKey a) (top_processes attempts n).1 ∧
      List.Pairwise (fun a b => memKey b ≤ memKey a) (top_processes attempts n).2 ∧
      (∀ v, (sortDesc cpuKey (readProcs attempts)).filter
          (fun p => decide (cpuKey p = v)) =
        (readProcs attempts).filter (fun p => decide (cpuKey p = v))) ∧
      (∀ v, (sortDesc memKey (readProcs attempts)).filter
          (fun p => decide (memKey p = v)) =
        (readProcs attempts).filter (fun p => decide (memKey p = v))) ∧
      top_processes attempts 0 = ([], []) := by
  intro attempts n
  refine ⟨?_, ?_, ?_, ?_, fun v => sortDesc_stable _ _ _,
    fun v => sortDesc_stable _ _ _, ?_⟩
  · simp [top_processes, List.length_take, sortDesc_length]
  · simp [top_processes, List.length_take, sortDesc_length]
  · exact List.Pairwise.sublist (List.take_sublist _ _) (sortDesc_sorted cpuKey _)
  · exact List.Pairwise.sublist (List.take_sublist _ _) (sortDesc_sorted memKey _)
  · simp [top_processes]

/-- Witness for C3, at the empty attempt list and `n = 0`. -/
theorem top_processes_spec_witness : top_processes [] 0 = ([], []) :=
  (top_processes_spec [] 0).2.2.2.2.2.2

/-- **C4.** The assembled report contains every top-level section key of
§3 on every invocation; when a data source is unavailable the section
still appears, carrying an explicit unavailable/error marker (shown here
for GPU — missing GPUtil and a raised query — and for the sensors
categories), never an omitted key.  The `--json` export serializes this
same report verbatim, so the file carries every key as well. -/
theorem report_sections_always_present :
    ∀ (e : Env) (topN : Nat),
      (collect_all e topN).keys =
        ["generated_at", "basic_system", "uptime", "cpu", "memory", "disks",
         "network", "sensors", "gpu", "processes", "connections"] ∧
      (e.haveGputil = false →
        (collect_all e topN).get "gpu" =
          some (.obj [("available", .bool false), ("note", .str gputilNote)])) ∧
      (∀ msg, e.haveGputil = true → e.gpus = .error msg →
        (collect_all e topN).get "gpu" =
          some (.obj [("available", .bool false), ("error", .str msg)])) ∧
      (e.temps = .error () →
        (sensors_info e).get "temperatures_error" = some (.str "not supported")) ∧
      (e.temps = .error () → e.fans = .error () → e.battery = .error () →
        (sensors_info e).keys =
          ["temperatures_error", "fans_error", "battery_error"]) := by
  intro e topN
  refine ⟨rfl, ?_, ?_, ?_, ?_⟩
  · intro h
    simp [collect_all, Val.get, List.lookup, gpu_info, h]
  · intro msg hg hmsg
    simp [collect_all, Val.get, List.lookup, gpu_info, hg, hmsg]
  · intro h
    simp [sensors_info, Val.get, List.lookup, h]
  · intro ht hf hb
    simp [sensors_info, Val.keys, ht, hf, hb]

/-- Witness for C4, at the concrete environment `envA` (no GPUtil, all
sensor queries raising). -/
theorem report_sections_always_present_witness :
    (collect_all envA 5).get "gpu" =
      some (.obj [("available", .bool false), ("note", .str gputilNote)]) ∧
    (sensors_info envA).keys =
      ["temperatures_error", "fans_error", "battery_error"] :=
  ⟨(report_sections_always_present envA 5).2.1 rfl,
   (report_sections_always_present envA 5).2.2.2.2 rfl rfl rfl⟩

/-- **C5.** A partition whose usage query raises a permission failure
still appears in the collected partition list with the explicit error
marker and none of the numeric usage fields, the other partitions carry
their numeric fields normally, and every enumerated partition appears
(the per-partition failure does not abort collection). -/
theorem partition_permission_error :
    (∀ p : PartEnv, p.usage = none →
      (partVal p).get "error" = some (.str "PermissionError") ∧
      (partVal p).get "total" = none ∧ (partVal p).get "used" = none ∧
      (partVal p).get "free" = none ∧ (partVal p).get "percent" = none) ∧
    (∀ p u, p.usage = some u →
      (partVal p).get "error" = none ∧
      (partVal p).get "total" = some (.str (get_size u.total "B")) ∧
      (partVal p).get "percent" = some (.float u.percent)) ∧
    (∀ e : Env,
      (disks_info e).get "partitions" = some (.arr (e.partitions.map partVal)) ∧
      (e.partitions.map partVal).length = e.partitions.length) := by
  refine ⟨?_, ?_, fun e => ⟨rfl, List.length_map _ _⟩⟩
  · intro p h
    simp [partVal, Val.get, List.lookup, h]
  · intro p u h
    simp [partVal, Val.get, List.lookup, h]

/-- Witness for C5, at a concrete denied partition and a readable one. -/
theorem partition_permission_error_witness :
    (partVal ⟨"/dev/sda1", "/secret", "ext4", "rw", none⟩).get "error" =
      some (.str "PermissionError") ∧
    (partVal ⟨"/dev/sda1", "/secret", "ext4", "rw", none⟩).get "percent" = none ∧
    (partVal ⟨"/dev/sda2", "/", "ext4", "rw", some ⟨1024, 512, 512, ⟨500, 1⟩⟩⟩).get
      "percent" = some (.float ⟨500, 1⟩) :=
  ⟨(partition_permission_error.1 _ rfl).1,
   (partition_permission_error.1 _ rfl).2.2.2.2,
   (partition_permission_error.2.1 _ _ rfl).2.2⟩

/-- **C10.** Every assembled report — hence the `--json` output file,
which serializes the report verbatim — contains the top-level key
`"generated_at"` holding the collection timestamp, a key beyond the §3
section list. -/
theorem generated_at_key :
    ∀ (e : Env) (topN : Nat),
      (collect_all e topN).get "generated_at" = some (.str e.now_iso) ∧
      "generated_at" ∈ (collect_all e topN).keys :=
  fun e topN => ⟨rfl, by simp [collect_all, Val.keys]⟩

/-- Witness for C10, at the concrete environment `envA`. -/
theorem generated_at_key_witness :
    (collect_all envA 5).get "generated_at" =
      some (.str "2025-01-01T00:00:00") :=
  (generated_at_key envA 5).1
